import Mathlib

/-!
Verification of the stream-session lifecycle engine of the
twitch-discord-live-bot repository (src/index.ts, src/IDefs.ts).

The engine is a per-tick reconciliation loop (`checkAllChannels`): for each
configured channel it resolves the channel id, queries the liveness oracle
(`fetchIsLive`), loads the open session row from the SQLite store, and
applies the Start / Continue / Stop / No-op transition, logging failures to
the ErrorLog table (`logError`).

Embedding conventions:
  * the SQLite tables become lists of row structures inside `DB`; SQLite's
    implicit `rowid` for `ChannelData` is modelled by a `nextRowid` counter;
  * network and sink calls are modelled by per-channel-per-tick oracle
    inputs (`TickInput`): the outcome of `fetchChannelID`, of the
    `/helix/streams` request, of `webhookClient.send` and of
    `webhookClient.editMessage` are inputs to the pure step function;
  * every `Date.now()` call made while processing one channel in one tick
    is modelled as the single tick time `TickInput.now` (the source calls
    `Date.now()` several times in close succession inside one loop body);
  * JavaScript numbers holding millisecond timestamps are `Nat`s; the two
    subtractions that can be observed before a `Math.floor` are done in
    `Int` to keep JavaScript's signed semantics;
  * thrown JavaScript exceptions are modelled as `JsError` values
    (an `Error` object: message plus optional stack).
-/

/-- Models a JavaScript `Error` value: `message` and optional `stack`. -/
structure JsError where
  message : String
  stack : Option String
deriving DecidableEq, Repr

/-- Models `IStreamData` from src/IDefs.ts (one element of the Helix
`/streams` response). `game_name` is `Option` because the source guards it
with `?? "Unknown"`. -/
structure StreamData where
  user_id : String
  user_login : String
  user_name : String
  type : String
  title : String
  started_at : String
  thumbnail_url : String
  game_name : Option String
deriving DecidableEq, Repr

/-- Models a row of the `ChannelData` table (`IChannelDataRow`). -/
structure SessionRow where
  rowid : Nat
  channel : String
  startTime : Nat
  endTime : Option Nat
  messageID : Option String
  messageLink : Option String
  thumbnailURL : Option String
  lastThumbUpdate : Option Nat
deriving DecidableEq, Repr

/-- Models a row of the `MessageHistory` table (`IMessageHistoryRow`). -/
structure HistoryRow where
  channel : String
  vodDuration : String
  startTime : Nat
  endTime : Nat
  messageID : Option String
  messageLink : Option String
  vodLink : String
deriving DecidableEq, Repr

/-- Models a row of the `ErrorLog` table. -/
structure ErrorRow where
  timestamp : Nat
  errorType : String
  description : String
  line : Option Nat
  trace : String
deriving DecidableEq, Repr

/-- The persistent store: the four SQLite tables created in section 1 of
src/index.ts, plus the rowid counter SQLite keeps for `ChannelData`. -/
structure DB where
  channels : List (String × String)
  channelData : List SessionRow
  messageHistory : List HistoryRow
  errorLog : List ErrorRow
  nextRowid : Nat
deriving DecidableEq, Repr

/-- The store with all four tables empty (a fresh `app.sqlite`). -/
def emptyDB : DB :=
  { channels := [], channelData := [], messageHistory := [], errorLog := [], nextRowid := 0 }

/-- Models the Discord embed built with `EmbedBuilder` in src/index.ts:
only the setters the source actually calls. The end-of-stream embed sets
no URL, no field and no image, hence the `Option`s. -/
structure Embed where
  title : String
  gameField : Option String
  url : Option String
  description : String
  color : Nat
  timestamp : Nat
  image : Option String
deriving DecidableEq, Repr

/-- A call made to the Discord webhook client (the notification sink):
`webhookClient.send` or `webhookClient.editMessage`. -/
inductive SinkCall where
  | send (embed : Embed) (content : String)
  | edit (messageID : String) (embed : Embed) (content : String)
deriving DecidableEq, Repr

/-- Outcome of `fetchChannelID` for a channel on one tick: the call threw
(token fetch or network failure), returned `null` (non-OK response or empty
data), or returned an id. -/
inductive IdResult where
  | throw (e : JsError)
  | missing
  | found (id : String)
deriving DecidableEq, Repr

/-- Outcome of the Helix `/streams` request inside `fetchIsLive` on one
tick: the call threw, the response was non-OK (the source logs to console
and returns `null`), or the response carried a (possibly empty) data
array. -/
inductive LiveResult where
  | throw (e : JsError)
  | notOk
  | okData (ds : List StreamData)
deriving DecidableEq, Repr

/-- The external-world inputs consumed while processing one channel in one
tick: the tick time (all `Date.now()` calls of this loop body), the
`fetchChannelID` outcome, the `fetchIsLive` outcome, and the results of
the (at most one) `send` and (at most one) `editMessage` sink calls. -/
structure TickInput where
  now : Nat
  idResult : IdResult
  liveResult : LiveResult
  sendResult : Except JsError String
  editResult : Except JsError Unit
deriving Repr

/-! ### JavaScript string and number helpers -/

/-- Replaces the first occurrence of `pat` in a character list, like the
string form of JavaScript `String.prototype.replace` (the replacement
strings used in the source contain no dollar patterns). -/
def replaceFirstAux (pat rep : List Char) : List Char → List Char
  | [] => if pat.isPrefixOf ([] : List Char) then rep ++ List.drop pat.length [] else []
  | c :: rest =>
    if pat.isPrefixOf (c :: rest) then rep ++ List.drop pat.length (c :: rest)
    else c :: replaceFirstAux pat rep rest

/-- JavaScript `s.replace(pat, rep)` with a string pattern: first
occurrence only. -/
def jsReplace (s pat rep : String) : String :=
  String.mk (replaceFirstAux pat.data rep.data s.data)

/-- JavaScript `a || b` on strings: the empty string is falsy. -/
def jsOrStr (a b : String) : String := if a == "" then b else a

/-- JavaScript `a || b` where `a : string | null`. -/
def jsOrElse (a : Option String) (b : String) : String :=
  match a with
  | none => b
  | some s => if s == "" then b else s

/-- JavaScript truthiness of a `string | null | undefined` value. -/
def truthyStr : Option String → Bool
  | none => false
  | some s => !(s == "")

/-- JavaScript `Math.trunc(a / b)`-style division (toward zero) for a
positive divisor, used to model the float `%` operator. -/
def jsTruncDiv (a b : Int) : Int :=
  if 0 ≤ a then Int.fdiv a b else -(Int.fdiv (-a) b)

/-! ### Error logging (section 3 of src/index.ts) -/

/-- Digits-to-number accumulator used by `parseErrorLine` to model
`parseInt(match[1], 10)` on a digit string. -/
def digitsToNat (ds : List Char) : Nat :=
  ds.foldl (fun acc c => acc * 10 + (c.toNat - 48)) 0

/-- Splits a character list on one separator character, like
JavaScript `String.prototype.split` with a one-character separator
(an empty input yields one empty piece). -/
def splitOnChar (c : Char) : List Char → List (List Char)
  | [] => [[]]
  | x :: rest =>
    match splitOnChar c rest, x == c with
    | r, true => [] :: r
    | [], false => [[x]]
    | h :: t, false => (x :: h) :: t

/-- Models the regular expression match of `parseErrorLine` on one line:
the pattern requires, at the end of the line, an optional closing
parenthesis preceded by digits, a colon, the captured digits, and a colon.
Works on the reversed character list. -/
def matchLineCol (s : List Char) : Option Nat :=
  let rev := s.reverse
  let rev1 := match rev with
    | ')' :: r => r
    | r => r
  let ds1 := rev1.takeWhile Char.isDigit
  let r1 := rev1.drop ds1.length
  if ds1.isEmpty then none
  else
    match r1 with
    | ':' :: r2 =>
      let ds2 := r2.takeWhile Char.isDigit
      let r3 := r2.drop ds2.length
      if ds2.isEmpty then none
      else
        match r3 with
        | ':' :: _ => some (digitsToNat ds2.reverse)
        | _ => none
    | _ => none

/-- Models `parseErrorLine`: take the second line of the stack trace and
extract the line number before the trailing column number. -/
def parseErrorLine (stack : Option String) : Option Nat :=
  match stack with
  | none => none
  | some s =>
    let lines := splitOnChar '\n' s.data
    let secondLine := lines.getD 1 []
    matchLineCol secondLine

/-- The row `logError` inserts into `ErrorLog` for an `Error` value. -/
def mkErrorRow (timestamp : Nat) (e : JsError) (errorType : String) : ErrorRow :=
  { timestamp := timestamp
    errorType := errorType
    description := e.message
    line := parseErrorLine e.stack
    trace := e.stack.getD "" }

/-- Models `logError` (src/index.ts section 3) for a thrown `Error` value:
insert one `ErrorLog` row with the current time, category, message, parsed
source line, and stack trace. -/
def logError (db : DB) (timestamp : Nat) (e : JsError) (errorType : String) : DB :=
  { db with errorLog := db.errorLog ++ [mkErrorRow timestamp e errorType] }

/-! ### Store queries and mutations used by `checkAllChannels` -/

/-- The `SELECT channelID FROM Channels WHERE channelName = ?` query:
first matching row. -/
def lookupChannelId (db : DB) (channelName : String) : Option String :=
  (db.channels.find? (fun p => p.1 == channelName)).map (fun p => p.2)

/-- The `INSERT INTO Channels` statement. -/
def insertChannel (db : DB) (channelName channelID : String) : DB :=
  { db with channels := db.channels ++ [(channelName, channelID)] }

/-- The open-session predicate of the
`WHERE channel = ? AND endTime IS NULL` query. -/
def isOpenFor (channelID : String) (r : SessionRow) : Bool :=
  r.channel == channelID && r.endTime.isNone

/-- The open-session query: first row of `ChannelData` for this channel
with no end time. -/
def getOpenSession (db : DB) (channelID : String) : Option SessionRow :=
  db.channelData.find? (isOpenFor channelID)

/-- The `INSERT INTO ChannelData` statement; SQLite assigns the next
rowid. -/
def insertSession (db : DB) (r : SessionRow) : DB :=
  { db with channelData := db.channelData ++ [r], nextRowid := db.nextRowid + 1 }

/-- The `UPDATE ChannelData SET lastThumbUpdate = ? WHERE rowid = ?`
statement. -/
def setLastThumb (db : DB) (rid now : Nat) : DB :=
  { db with channelData :=
      db.channelData.map (fun r =>
        if r.rowid = rid then { r with lastThumbUpdate := some now } else r) }

/-- The `UPDATE ChannelData SET endTime = ? WHERE rowid = ?` statement. -/
def closeSession (db : DB) (rid t : Nat) : DB :=
  { db with channelData :=
      db.channelData.map (fun r =>
        if r.rowid = rid then { r with endTime := some t } else r) }

/-- The `INSERT INTO MessageHistory` statement. -/
def insertHistory (db : DB) (h : HistoryRow) : DB :=
  { db with messageHistory := db.messageHistory ++ [h] }

/-! ### The engine (section 6 of src/index.ts) -/

/-- Models `THUMBNAIL_REFRESH_INTERVAL = 10 * 60 * 1000` (ms), as an `Int`
because it is compared against a JavaScript number difference. -/
def THUMBNAIL_REFRESH_INTERVAL : Int := 10 * 60 * 1000

/-- Models `fetchIsLive`: a non-OK response yields `null` (unknown is not
distinguished from offline in the return value); an OK response yields the
first element of the data array, or `null` when the array is empty. -/
def fetchIsLive : LiveResult → Except JsError (Option StreamData)
  | .throw e => .error e
  | .notOk => .ok none
  | .okData [] => .ok none
  | .okData (d :: _) => .ok (some d)

/-- The `content:` field of every sink call:
the role mention when `DISCORD_ROLE` is set, else the empty string. -/
def mentionContent (discordRole : Option String) : String :=
  match discordRole with
  | none => ""
  | some r => if r == "" then "" else "<@&" ++ r ++ ">"

/-- The live embed built (twice, identically) in the Start and Continue
branches: title, Game field, channel URL, title description, purple color,
a timestamp, and the given image URL. -/
def liveEmbed (sd : StreamData) (ts : Nat) (image : String) : Embed :=
  { title := sd.user_name ++ " is LIVE"
    gameField := some (sd.game_name.getD "Unknown")
    url := some ("https://twitch.tv/" ++ sd.user_login)
    description := jsOrStr ("## " ++ sd.title) "No stream title"
    color := 0x9146ff
    timestamp := ts
    image := some image }

/-- The end-of-stream embed built in the Stop branch. -/
def endEmbed (channelName vodDuration vodLink : String) (endTime : Nat) : Embed :=
  { title := channelName ++ " just finished streaming!"
    gameField := none
    url := none
    description := "Streamed for **" ++ vodDuration ++ "**.\nVOD link: [Click Here](" ++ vodLink ++ ")"
    color := 0xff0000
    timestamp := endTime
    image := none }

/-- Models the duration formatting of the Stop branch:
`durationHours = Math.floor(ms / 1000 / 60 / 60)`,
`durationMinutes = Math.floor((ms / 1000 / 60) % 60)` (float `%` keeps the
dividend's sign, hence the truncating division), and the hour component is
dropped when `durationHours <= 0`. -/
def fmtDuration (durationMs : Int) : String :=
  let durationHours := Int.fdiv durationMs 3600000
  let durationMinutes := Int.fdiv (durationMs - 3600000 * jsTruncDiv durationMs 3600000) 60000
  if durationHours ≤ 0 then toString durationMinutes ++ "m"
  else toString durationHours ++ "h " ++ toString durationMinutes ++ "m"

/-- The `{width}`/`{height}` substitution of the live branch:
`streamData.thumbnail_url.replace("{width}", "1280").replace("{height}", "720")`. -/
def baseThumb (sd : StreamData) : String :=
  jsReplace (jsReplace sd.thumbnail_url "\x7bwidth\x7d" "1280") "\x7bheight\x7d" "720"

/-- Branch [A] of `checkAllChannels`: brand-new live session. Builds the
went-live embed, sends it, and inserts the session row; if the send throws,
control reaches the per-channel catch (`logError` with category
`checkAllChannels`) and nothing is inserted. -/
def startAction (discordRole : Option String) (channelID : String)
    (sd : StreamData) (inp : TickInput) (db : DB) : DB × List SinkCall :=
  let baseThumbUrl := baseThumb sd
  let startTime := inp.now
  let embed := liveEmbed sd startTime (baseThumbUrl ++ "?t=" ++ toString inp.now)
  let calls := [SinkCall.send embed (mentionContent discordRole)]
  match inp.sendResult with
  | .error e => (logError db inp.now e "checkAllChannels", calls)
  | .ok messageID =>
    let messageLink := "https://discord.com/channels/.../" ++ messageID
    let row : SessionRow :=
      { rowid := db.nextRowid
        channel := channelID
        startTime := startTime
        endTime := none
        messageID := some messageID
        messageLink := some messageLink
        thumbnailURL := some baseThumbUrl
        lastThumbUpdate := some inp.now }
    (insertSession db row, calls)

/-- Branch [B] of `checkAllChannels`: channel still live. If the stored
thumbnail URL is truthy and at least `THUMBNAIL_REFRESH_INTERVAL` ms have
passed since `lastThumbUpdate ?? 0`, edit the message with a re-busted
image URL and then update `lastThumbUpdate`; an edit failure is caught by
the inner try (`logError` with category `ThumbnailRefresh`) and skips the
store update. Otherwise do nothing. -/
def continueAction (discordRole : Option String)
    (sd : StreamData) (row : SessionRow) (inp : TickInput) (db : DB) : DB × List SinkCall :=
  match row.thumbnailURL with
  | none => (db, [])
  | some thumbURL =>
    if thumbURL == "" then (db, [])
    else
      let elapsedSinceLastUpdate : Int :=
        (inp.now : Int) - ((row.lastThumbUpdate.getD 0 : Nat) : Int)
      if THUMBNAIL_REFRESH_INTERVAL ≤ elapsedSinceLastUpdate then
        let updatedEmbed := liveEmbed sd inp.now (thumbURL ++ "?t=" ++ toString inp.now)
        let calls := [SinkCall.edit (jsOrElse row.messageID "") updatedEmbed (mentionContent discordRole)]
        match inp.editResult with
        | .ok _ => (setLastThumb db row.rowid inp.now, calls)
        | .error e => (logError db inp.now e "ThumbnailRefresh", calls)
      else (db, [])

/-- The not-live branch of `checkAllChannels` with an open row: set the
end time, append the `MessageHistory` record, then edit the notification
message; an edit failure is caught by the inner try (`logError` with
category `StreamEndUpdate`) and leaves the two store writes in place. -/
def stopAction (discordRole : Option String) (channelName channelID : String)
    (row : SessionRow) (inp : TickInput) (db : DB) : DB × List SinkCall :=
  let endTime := inp.now
  let db1 := closeSession db row.rowid endTime
  let durationMs : Int := (endTime : Int) - ((row.startTime : Nat) : Int)
  let vodDuration := fmtDuration durationMs
  let vodLink := "https://www.twitch.tv/" ++ channelName ++ "/videos"
  let hist : HistoryRow :=
    { channel := channelID
      vodDuration := vodDuration
      startTime := row.startTime
      endTime := endTime
      messageID := row.messageID
      messageLink := row.messageLink
      vodLink := vodLink }
  let db2 := insertHistory db1 hist
  let newEmbed := endEmbed channelName vodDuration vodLink endTime
  let calls := [SinkCall.edit (jsOrElse row.messageID "") newEmbed (mentionContent discordRole)]
  match inp.editResult with
  | .ok _ => (db2, calls)
  | .error e => (logError db2 inp.now e "StreamEndUpdate", calls)

/-- Steps 2 to 4 of the loop body, after the channel id is known: query
liveness (a throw reaches the per-channel catch), load the open session
row, and dispatch on the transition table. -/
def afterId (discordRole : Option String) (channelName channelID : String)
    (inp : TickInput) (db : DB) : DB × List SinkCall :=
  match fetchIsLive inp.liveResult with
  | .error e => (logError db inp.now e "checkAllChannels", [])
  | .ok streamData =>
    let currentStreamRow := getOpenSession db channelID
    match streamData, currentStreamRow with
    | some sd, none => startAction discordRole channelID sd inp db
    | some sd, some row => continueAction discordRole sd row inp db
    | none, some row => stopAction discordRole channelName channelID row inp db
    | none, none => (db, [])

/-- The body of the `for` loop of `checkAllChannels` for one channel,
including the per-channel try/catch: resolve the channel id (a falsy
stored id falls through to `fetchChannelID`; a falsy fetched id skips the
channel; a throw is caught and logged), then run the transition. -/
def checkChannel (discordRole : Option String) (channelName : String)
    (inp : TickInput) (db : DB) : DB × List SinkCall :=
  let row := lookupChannelId db channelName
  if truthyStr row then afterId discordRole channelName (row.getD "") inp db
  else
    match inp.idResult with
    | .throw e => (logError db inp.now e "checkAllChannels", [])
    | .missing => (db, [])
    | .found fetchedID =>
      if fetchedID == "" then (db, [])
      else afterId discordRole channelName fetchedID inp (insertChannel db channelName fetchedID)

/-- Models one invocation of `checkAllChannels`: process the configured
channels in order, each with its own external-world inputs, threading the
store through and collecting the sink calls. -/
def checkAllChannels (discordRole : Option String)
    (pairs : List (String × TickInput)) (db : DB) : DB × List SinkCall :=
  match pairs with
  | [] => (db, [])
  | (channelName, inp) :: rest =>
    let res := checkChannel discordRole channelName inp db
    let res2 := checkAllChannels discordRole rest res.1
    (res2.1, res.2 ++ res2.2)

/-- Models finitely many iterations of `mainLoop`: one `checkAllChannels`
tick per element, state threaded through the store. -/
def runTicks (discordRole : Option String)
    (ticks : List (List (String × TickInput))) (db : DB) : DB :=
  match ticks with
  | [] => db
  | t :: rest => runTicks discordRole rest (checkAllChannels discordRole t db).1

/-! ### Invariants of the store -/

/-- Number of open sessions (rows with no end time) a channel has. -/
def openCount (db : DB) (channelID : String) : Nat :=
  (db.channelData.filter (isOpenFor channelID)).length

/-- The spec invariant: at most one open session per channel. -/
def OpenAtMostOne (db : DB) : Prop :=
  ∀ channelID, openCount db channelID ≤ 1

/-- A row-wise map that cannot turn a non-matching row into a matching one
does not increase the filtered length. -/
theorem length_filter_map_le {α : Type} (f : α → α) (p : α → Bool)
    (h : ∀ a, p (f a) = true → p a = true) :
    ∀ l : List α, ((l.map f).filter p).length ≤ (l.filter p).length := by
  intro l
  induction l with
  | nil => simp
  | cons a l ih =>
    by_cases hfa : p (f a) = true
    · have hpa := h a hfa
      simp [List.filter, hfa, hpa]
      omega
    · have hfa' : p (f a) = false := by
        cases hx : p (f a) with
        | true => exact absurd hx hfa
        | false => rfl
      cases hpa : p a with
      | true => simp [List.filter, hfa', hpa]; omega
      | false => simp [List.filter, hfa', hpa]; exact ih

/-- A row-wise map that does not change the predicate keeps the filtered
length unchanged. -/
theorem length_filter_map_eq {α : Type} (f : α → α) (p : α → Bool)
    (h : ∀ a, p (f a) = p a) :
    ∀ l : List α, ((l.map f).filter p).length = (l.filter p).length := by
  intro l
  induction l with
  | nil => simp
  | cons a l ih =>
    cases hpa : p a with
    | true => simp [List.filter, h a, hpa, ih]
    | false => simp [List.filter, h a, hpa, ih]

theorem openCount_logError (db : DB) (t : Nat) (e : JsError) (ty cid : String) :
    openCount (logError db t e ty) cid = openCount db cid := rfl

theorem openCount_insertChannel (db : DB) (n c cid : String) :
    openCount (insertChannel db n c) cid = openCount db cid := rfl

theorem openCount_insertHistory (db : DB) (h : HistoryRow) (cid : String) :
    openCount (insertHistory db h) cid = openCount db cid := rfl

theorem openCount_setLastThumb (db : DB) (rid t : Nat) (cid : String) :
    openCount (setLastThumb db rid t) cid = openCount db cid := by
  unfold openCount setLastThumb
  apply length_filter_map_eq
  intro a
  by_cases h : a.rowid = rid <;> simp [isOpenFor, h]

theorem openCount_closeSession_le (db : DB) (rid t : Nat) (cid : String) :
    openCount (closeSession db rid t) cid ≤ openCount db cid := by
  unfold openCount closeSession
  apply length_filter_map_le
  intro a ha
  by_cases h : a.rowid = rid
  · simp [isOpenFor, h] at ha
  · simpa [h] using ha

theorem openCount_insertSession (db : DB) (r : SessionRow) (cid : String) :
    openCount (insertSession db r) cid
      = openCount db cid + (if isOpenFor cid r then 1 else 0) := by
  unfold openCount insertSession
  simp [List.filter_append, List.filter]
  by_cases h : isOpenFor cid r <;> simp [h]

/-- When the open-session query returns nothing, the channel has zero open
rows. -/
theorem openCount_eq_zero_of_getOpenSession_none {db : DB} {cid : String}
    (h : getOpenSession db cid = none) : openCount db cid = 0 := by
  unfold getOpenSession at h
  unfold openCount
  rw [List.find?_eq_none] at h
  rw [List.filter_eq_nil_iff.mpr h]
  rfl

theorem startAction_open {db : DB} {cid : String} (role : Option String)
    (sd : StreamData) (inp : TickInput)
    (hnone : getOpenSession db cid = none) (hinv : OpenAtMostOne db) :
    OpenAtMostOne (startAction role cid sd inp db).1 := by
  unfold startAction
  cases hs : inp.sendResult with
  | error e => exact fun c => hinv c
  | ok msgId =>
    intro c
    simp only
    rw [openCount_insertSession]
    by_cases hc : c = cid
    · subst hc
      rw [openCount_eq_zero_of_getOpenSession_none hnone]
      simp [isOpenFor]
    · have : isOpenFor c
          { rowid := db.nextRowid, channel := cid, startTime := inp.now,
            endTime := none, messageID := some msgId,
            messageLink := some ("https://discord.com/channels/.../" ++ msgId),
            thumbnailURL := some (baseThumb sd),
            lastThumbUpdate := some inp.now } = false := by
        simp [isOpenFor]
        exact fun h => absurd h.symm hc
      rw [this]
      simpa using hinv c

theorem continueAction_open {db : DB} (role : Option String)
    (sd : StreamData) (row : SessionRow) (inp : TickInput)
    (hinv : OpenAtMostOne db) :
    OpenAtMostOne (continueAction role sd row inp db).1 := by
  unfold continueAction
  cases row.thumbnailURL with
  | none => exact hinv
  | some u =>
    by_cases hu : u == ""
    · simpa [hu] using hinv
    · simp only [hu]
      by_cases he : THUMBNAIL_REFRESH_INTERVAL ≤ (inp.now : Int) - ((row.lastThumbUpdate.getD 0 : Nat) : Int)
      · simp only [he, if_true, Bool.false_eq_true, if_false]
        cases hr : inp.editResult with
        | ok _ => intro c; rw [openCount_setLastThumb]; exact hinv c
        | error e => exact fun c => hinv c
      · simpa [he] using hinv

theorem stopAction_open {db : DB} (role : Option String)
    (channelName cid : String) (row : SessionRow) (inp : TickInput)
    (hinv : OpenAtMostOne db) :
    OpenAtMostOne (stopAction role channelName cid row inp db).1 := by
  have key : ∀ (h : HistoryRow) c,
      openCount (insertHistory (closeSession db row.rowid inp.now) h) c ≤ 1 := by
    intro h c
    rw [openCount_insertHistory]
    exact le_trans (openCount_closeSession_le db row.rowid inp.now c) (hinv c)
  cases hr : inp.editResult with
  | ok _ =>
    simp only [stopAction, hr]
    exact fun c => key _ c
  | error e =>
    simp only [stopAction, hr]
    intro c
    rw [openCount_logError]
    exact key _ c

theorem afterId_open {db : DB} (role : Option String)
    (channelName cid : String) (inp : TickInput)
    (hinv : OpenAtMostOne db) :
    OpenAtMostOne (afterId role channelName cid inp db).1 := by
  unfold afterId
  cases hfl : fetchIsLive inp.liveResult with
  | error e => exact fun c => hinv c
  | ok sdOpt =>
    cases sdOpt with
    | some sd =>
      cases hrow : getOpenSession db cid with
      | none => exact startAction_open role sd inp hrow hinv
      | some row => exact continueAction_open role sd row inp hinv
    | none =>
      cases hrow : getOpenSession db cid with
      | none => exact hinv
      | some row => exact stopAction_open role channelName cid row inp hinv

theorem checkChannel_open {db : DB} (role : Option String)
    (channelName : String) (inp : TickInput)
    (hinv : OpenAtMostOne db) :
    OpenAtMostOne (checkChannel role channelName inp db).1 := by
  unfold checkChannel
  by_cases hrow : truthyStr (lookupChannelId db channelName) = true
  · simp only [hrow, if_true]
    exact afterId_open role channelName _ inp hinv
  · simp only [Bool.not_eq_true] at hrow
    simp only [hrow, Bool.false_eq_true, if_false]
    cases hid : inp.idResult with
    | throw e => exact fun c => hinv c
    | missing => exact hinv
    | found fid =>
      by_cases hf : fid == ""
      · simpa [hf] using hinv
      · simp only [hf, Bool.false_eq_true, if_false]
        apply afterId_open
        intro c
        rw [show openCount (insertChannel db channelName fid) c = openCount db c from rfl]
        exact hinv c

theorem checkAllChannels_open (role : Option String) :
    ∀ (pairs : List (String × TickInput)) (db : DB),
      OpenAtMostOne db → OpenAtMostOne (checkAllChannels role pairs db).1 := by
  intro pairs
  induction pairs with
  | nil => intro db h; exact h
  | cons p rest ih =>
    intro db h
    exact ih _ (checkChannel_open role p.1 p.2 h)

theorem runTicks_open (role : Option String) :
    ∀ (ticks : List (List (String × TickInput))) (db : DB),
      OpenAtMostOne db → OpenAtMostOne (runTicks role ticks db) := by
  intro ticks
  induction ticks with
  | nil => intro db h; exact h
  | cons t rest ih =>
    intro db h
    exact ih _ (checkAllChannels_open role t db h)

/-! ### Characterisation of the session-table effect of one channel step -/

/-- After processing one channel, the session table is unchanged, extended
by one fresh open row inserted only when the open-session query returned
none, refreshed on the open row found by the query, or closed on the open
row found by the query. -/
def StoreCases (db db' : DB) (inp : TickInput) : Prop :=
  (db'.channelData = db.channelData ∧ db'.nextRowid = db.nextRowid) ∨
  (∃ cid r, getOpenSession db cid = none ∧ r.rowid = db.nextRowid ∧
     r.channel = cid ∧ r.startTime = inp.now ∧ r.endTime = none ∧
     db'.channelData = db.channelData ++ [r] ∧ db'.nextRowid = db.nextRowid + 1) ∨
  (∃ cid row, getOpenSession db cid = some row ∧
     db'.channelData = db.channelData.map
       (fun a => if a.rowid = row.rowid then { a with lastThumbUpdate := some inp.now } else a) ∧
     db'.nextRowid = db.nextRowid) ∨
  (∃ cid row, getOpenSession db cid = some row ∧
     db'.channelData = db.channelData.map
       (fun a => if a.rowid = row.rowid then { a with endTime := some inp.now } else a) ∧
     db'.nextRowid = db.nextRowid)

theorem startAction_cases {db : DB} {cid : String} (role : Option String)
    (sd : StreamData) (inp : TickInput)
    (hnone : getOpenSession db cid = none) :
    StoreCases db (startAction role cid sd inp db).1 inp := by
  unfold startAction
  cases hs : inp.sendResult with
  | error e => exact Or.inl ⟨rfl, rfl⟩
  | ok m => exact Or.inr (Or.inl ⟨cid, _, hnone, rfl, rfl, rfl, rfl, rfl, rfl⟩)

theorem continueAction_cases {db : DB} {cid : String} {row : SessionRow}
    (role : Option String) (sd : StreamData) (inp : TickInput)
    (hrow : getOpenSession db cid = some row) :
    StoreCases db (continueAction role sd row inp db).1 inp := by
  unfold continueAction
  cases row.thumbnailURL with
  | none => exact Or.inl ⟨rfl, rfl⟩
  | some u =>
    by_cases hu : u == ""
    · simp only [hu, if_true]
      exact Or.inl ⟨rfl, rfl⟩
    · simp only [hu, Bool.false_eq_true, if_false]
      by_cases he : THUMBNAIL_REFRESH_INTERVAL ≤ (inp.now : Int) - ((row.lastThumbUpdate.getD 0 : Nat) : Int)
      · simp only [he, if_true]
        cases hr : inp.editResult with
        | ok _ => exact Or.inr (Or.inr (Or.inl ⟨cid, row, hrow, rfl, rfl⟩))
        | error e => exact Or.inl ⟨rfl, rfl⟩
      · simp only [he, if_false]
        exact Or.inl ⟨rfl, rfl⟩

theorem stopAction_cases {db : DB} {cid : String} {row : SessionRow}
    (role : Option String) (channelName : String) (inp : TickInput)
    (hrow : getOpenSession db cid = some row) :
    StoreCases db (stopAction role channelName cid row inp db).1 inp := by
  cases hr : inp.editResult with
  | ok _ =>
    simp only [stopAction, hr]
    exact Or.inr (Or.inr (Or.inr ⟨cid, row, hrow, rfl, rfl⟩))
  | error e =>
    simp only [stopAction, hr]
    exact Or.inr (Or.inr (Or.inr ⟨cid, row, hrow, rfl, rfl⟩))

theorem afterId_cases {db : DB} (role : Option String)
    (channelName cid : String) (inp : TickInput) :
    StoreCases db (afterId role channelName cid inp db).1 inp := by
  unfold afterId
  cases hfl : fetchIsLive inp.liveResult with
  | error e => exact Or.inl ⟨rfl, rfl⟩
  | ok sdOpt =>
    cases sdOpt with
    | some sd =>
      cases hrow : getOpenSession db cid with
      | none => exact startAction_cases role sd inp hrow
      | some row => exact continueAction_cases role sd inp hrow
    | none =>
      cases hrow : getOpenSession db cid with
      | none => exact Or.inl ⟨rfl, rfl⟩
      | some row => exact stopAction_cases role channelName inp hrow

theorem checkChannel_cases {db : DB} (role : Option String)
    (channelName : String) (inp : TickInput) :
    StoreCases db (checkChannel role channelName inp db).1 inp := by
  unfold checkChannel
  by_cases hrow : truthyStr (lookupChannelId db channelName) = true
  · simp only [hrow, if_true]
    exact afterId_cases role channelName _ inp
  · simp only [Bool.not_eq_true] at hrow
    simp only [hrow, Bool.false_eq_true, if_false]
    cases hid : inp.idResult with
    | throw e => exact Or.inl ⟨rfl, rfl⟩
    | missing => exact Or.inl ⟨rfl, rfl⟩
    | found fid =>
      by_cases hf : fid == ""
      · simp only [hf, if_true]
        exact Or.inl ⟨rfl, rfl⟩
      · simp only [hf, Bool.false_eq_true, if_false]
        exact @afterId_cases (insertChannel db channelName fid) role channelName fid inp

/-! ### Rowid uniqueness, start bounds, and closed-session monotonicity -/

/-- Rowids of the session table are pairwise distinct and below the
counter SQLite would use next. -/
def RowidsOK (db : DB) : Prop :=
  (∀ r ∈ db.channelData, r.rowid < db.nextRowid) ∧
  db.channelData.Pairwise (fun a b => a.rowid ≠ b.rowid)

/-- Every session row started no later than time `t`. -/
def StartsBounded (db : DB) (t : Nat) : Prop :=
  ∀ r ∈ db.channelData, r.startTime ≤ t

/-- Every closed session row ends no earlier than it starts. -/
def ClosedOK (db : DB) : Prop :=
  ∀ r ∈ db.channelData, ∀ e, r.endTime = some e → r.startTime ≤ e

theorem StartsBounded_mono {db : DB} {t t' : Nat}
    (h : StartsBounded db t) (htt : t ≤ t') : StartsBounded db t' :=
  fun r hr => le_trans (h r hr) htt

theorem checkChannel_rowids {db : DB} (role : Option String)
    (channelName : String) (inp : TickInput)
    (h : RowidsOK db) : RowidsOK (checkChannel role channelName inp db).1 := by
  rcases @checkChannel_cases db role channelName inp with
    ⟨hcd, hnr⟩ | ⟨cid, r, _, hrid, _, _, _, hcd, hnr⟩ |
    ⟨cid, row, _, hcd, hnr⟩ | ⟨cid, row, _, hcd, hnr⟩
  · exact ⟨fun r hr => hnr ▸ h.1 r (hcd ▸ hr), hcd ▸ h.2⟩
  · constructor
    · intro x hx
      rw [hcd] at hx
      rw [hnr]
      rcases List.mem_append.mp hx with hx | hx
      · exact Nat.lt_succ_of_lt (h.1 x hx)
      · rcases List.mem_singleton.mp hx with rfl
        rw [hrid]
        exact Nat.lt_succ_self _
    · rw [hcd]
      rw [List.pairwise_append]
      refine ⟨h.2, List.pairwise_singleton _ _, ?_⟩
      intro a ha b hb
      rcases List.mem_singleton.mp hb with rfl
      rw [hrid]
      exact Nat.ne_of_lt (h.1 a ha)
  · constructor
    · intro x hx
      rw [hcd] at hx
      rcases List.mem_map.mp hx with ⟨a, ha, rfl⟩
      rw [hnr]
      by_cases hb : a.rowid = row.rowid <;> simp [hb] <;> [skip; exact h.1 a ha]
      rw [← hb]
      exact h.1 a ha
    · rw [hcd, List.pairwise_map]
      refine h.2.imp ?_
      intro a b hab
      by_cases ha : a.rowid = row.rowid <;> by_cases hb2 : b.rowid = row.rowid <;>
        simp [ha, hb2] <;> omega
  · constructor
    · intro x hx
      rw [hcd] at hx
      rcases List.mem_map.mp hx with ⟨a, ha, rfl⟩
      rw [hnr]
      by_cases hb : a.rowid = row.rowid <;> simp [hb] <;> [skip; exact h.1 a ha]
      rw [← hb]
      exact h.1 a ha
    · rw [hcd, List.pairwise_map]
      refine h.2.imp ?_
      intro a b hab
      by_cases ha : a.rowid = row.rowid <;> by_cases hb2 : b.rowid = row.rowid <;>
        simp [ha, hb2] <;> omega

theorem checkChannel_bounds {db : DB} {t : Nat} (role : Option String)
    (channelName : String) (inp : TickInput)
    (hb : StartsBounded db t) (hc : ClosedOK db) (ht : t ≤ inp.now) :
    StartsBounded (checkChannel role channelName inp db).1 inp.now ∧
    ClosedOK (checkChannel role channelName inp db).1 := by
  rcases @checkChannel_cases db role channelName inp with
    ⟨hcd, _⟩ | ⟨cid, r, _, _, _, hst, hen, hcd, _⟩ |
    ⟨cid, row, _, hcd, _⟩ | ⟨cid, row, _, hcd, _⟩
  · constructor
    · intro x hx
      exact le_trans (hb x (hcd ▸ hx)) ht
    · intro x hx
      exact hc x (hcd ▸ hx)
  · constructor
    · intro x hx
      rw [hcd] at hx
      rcases List.mem_append.mp hx with hx | hx
      · exact le_trans (hb x hx) ht
      · rcases List.mem_singleton.mp hx with rfl
        rw [hst]
    · intro x hx e he
      rw [hcd] at hx
      rcases List.mem_append.mp hx with hx | hx
      · exact hc x hx e he
      · rcases List.mem_singleton.mp hx with rfl
        rw [hen] at he
        cases he
  · constructor
    · intro x hx
      rw [hcd] at hx
      rcases List.mem_map.mp hx with ⟨a, ha, rfl⟩
      by_cases hr : a.rowid = row.rowid <;> simp [hr] <;>
        exact le_trans (hb a ha) ht
    · intro x hx e he
      rw [hcd] at hx
      rcases List.mem_map.mp hx with ⟨a, ha, rfl⟩
      by_cases hr : a.rowid = row.rowid
      · simp only [hr, if_true] at he ⊢
        exact hc a ha e he
      · simp only [hr, if_false] at he ⊢
        exact hc a ha e he
  · constructor
    · intro x hx
      rw [hcd] at hx
      rcases List.mem_map.mp hx with ⟨a, ha, rfl⟩
      by_cases hr : a.rowid = row.rowid <;> simp [hr] <;>
        exact le_trans (hb a ha) ht
    · intro x hx e he
      rw [hcd] at hx
      rcases List.mem_map.mp hx with ⟨a, ha, rfl⟩
      by_cases hr : a.rowid = row.rowid
      · simp only [hr, if_true] at he ⊢
        cases he
        exact le_trans (hb a ha) ht
      · simp only [hr, if_false] at he ⊢
        exact hc a ha e he

/-- A closed row passes through one channel step untouched: the two
updates target the rowid of the open row returned by the query, which by
rowid uniqueness differs from the rowid of any closed row. -/
theorem checkChannel_closed_stable {db : DB} (role : Option String)
    (channelName : String) (inp : TickInput)
    (hw : RowidsOK db) {r : SessionRow} (hr : r ∈ db.channelData)
    {e : Nat} (he : r.endTime = some e) :
    r ∈ (checkChannel role channelName inp db).1.channelData := by
  have stable_map : ∀ (cid : String) (row : SessionRow),
      getOpenSession db cid = some row →
      ∀ (g : SessionRow → SessionRow),
        r ∈ db.channelData.map (fun a => if a.rowid = row.rowid then g a else a) := by
    intro cid row hrow g
    have hmem : row ∈ db.channelData := List.mem_of_find?_eq_some hrow
    have hopen : isOpenFor cid row = true := List.find?_some hrow
    have hne : r ≠ row := by
      intro hrr
      subst hrr
      simp [isOpenFor, he] at hopen
    have hrid : r.rowid ≠ row.rowid := by
      have hsym : Symmetric (fun a b : SessionRow => a.rowid ≠ b.rowid) :=
        fun a b h => h.symm
      exact hw.2.forall hsym hr hmem hne
    have hfix : (fun a => if a.rowid = row.rowid then g a else a) r = r := by
      simp [hrid]
    exact hfix ▸ List.mem_map_of_mem _ hr
  rcases @checkChannel_cases db role channelName inp with
    ⟨hcd, _⟩ | ⟨cid, x, _, _, _, _, _, hcd, _⟩ |
    ⟨cid, row, hrow, hcd, _⟩ | ⟨cid, row, hrow, hcd, _⟩
  · rw [hcd]; exact hr
  · rw [hcd]; exact List.mem_append_left _ hr
  · rw [hcd]; exact stable_map cid row hrow _
  · rw [hcd]; exact stable_map cid row hrow _

/-! ### Lifting the invariants over whole ticks and runs -/

/-- The tick times consumed by one `checkAllChannels` invocation, in
processing order. -/
def tickNows (pairs : List (String × TickInput)) : List Nat :=
  pairs.map (fun p => p.2.now)

/-- The tick times consumed by a whole run, in processing order. -/
def runNows (ticks : List (List (String × TickInput))) : List Nat :=
  (ticks.map tickNows).flatten

/-- Fold of `max` used to name an upper bound of a clock segment. -/
def maxOf (t : Nat) (l : List Nat) : Nat := l.foldl max t

theorem le_maxOf_self : ∀ (l : List Nat) (t : Nat), t ≤ maxOf t l := by
  intro l
  induction l with
  | nil => intro t; exact le_refl t
  | cons a l ih =>
    intro t
    exact le_trans (Nat.le_max_left t a) (ih (max t a))

theorem le_maxOf_mem : ∀ (l : List Nat) (t n : Nat), n ∈ l → n ≤ maxOf t l := by
  intro l
  induction l with
  | nil => intro t n hn; cases hn
  | cons a l ih =>
    intro t n hn
    rcases List.mem_cons.mp hn with rfl | hn
    · exact le_trans (Nat.le_max_right t n) (le_maxOf_self l (max t n))
    · exact ih (max t a) n hn

theorem maxOf_le : ∀ (l : List Nat) (t x : Nat), t ≤ x → (∀ n ∈ l, n ≤ x) →
    maxOf t l ≤ x := by
  intro l
  induction l with
  | nil => intro t x ht _; exact ht
  | cons a l ih =>
    intro t x ht hl
    exact ih (max t a) x (max_le ht (hl a (List.mem_cons_self a l)))
      (fun n hn => hl n (List.mem_cons_of_mem a hn))

theorem checkAllChannels_rowids (role : Option String) :
    ∀ (pairs : List (String × TickInput)) (db : DB),
      RowidsOK db → RowidsOK (checkAllChannels role pairs db).1 := by
  intro pairs
  induction pairs with
  | nil => intro db h; exact h
  | cons p rest ih =>
    intro db h
    exact ih _ (checkChannel_rowids role p.1 p.2 h)

theorem checkAllChannels_closed_stable (role : Option String) :
    ∀ (pairs : List (String × TickInput)) (db : DB), RowidsOK db →
      ∀ r ∈ db.channelData, ∀ e, r.endTime = some e →
        r ∈ (checkAllChannels role pairs db).1.channelData := by
  intro pairs
  induction pairs with
  | nil => intro db _ r hr _ _; exact hr
  | cons p rest ih =>
    intro db h r hr e he
    exact ih _ (checkChannel_rowids role p.1 p.2 h) r
      (checkChannel_closed_stable role p.1 p.2 h hr he) e he

theorem checkAllChannels_bounds (role : Option String) :
    ∀ (pairs : List (String × TickInput)) (db : DB) (t t' : Nat),
      StartsBounded db t → ClosedOK db →
      List.Pairwise (· ≤ ·) (t :: tickNows pairs) →
      t ≤ t' → (∀ n ∈ tickNows pairs, n ≤ t') →
      StartsBounded (checkAllChannels role pairs db).1 t' ∧
      ClosedOK (checkAllChannels role pairs db).1 := by
  intro pairs
  induction pairs with
  | nil =>
    intro db t t' hb hc _ htt _
    exact ⟨StartsBounded_mono hb htt, hc⟩
  | cons p rest ih =>
    intro db t t' hb hc hpw htt hall
    rcases List.pairwise_cons.mp hpw with ⟨hthead, hpw2⟩
    have htp : t ≤ p.2.now := hthead p.2.now (List.mem_cons_self _ _)
    rcases checkChannel_bounds role p.1 p.2 hb hc htp with ⟨hb1, hc1⟩
    exact ih _ p.2.now t' hb1 hc1 hpw2
      (hall p.2.now (List.mem_cons_self _ _))
      (fun n hn => hall n (List.mem_cons_of_mem _ hn))

theorem runTicks_rowids (role : Option String) :
    ∀ (ticks : List (List (String × TickInput))) (db : DB),
      RowidsOK db → RowidsOK (runTicks role ticks db) := by
  intro ticks
  induction ticks with
  | nil => intro db h; exact h
  | cons tk rest ih =>
    intro db h
    exact ih _ (checkAllChannels_rowids role tk db h)

theorem runTicks_closed_stable (role : Option String) :
    ∀ (ticks : List (List (String × TickInput))) (db : DB), RowidsOK db →
      ∀ r ∈ db.channelData, ∀ e, r.endTime = some e →
        r ∈ (runTicks role ticks db).channelData := by
  intro ticks
  induction ticks with
  | nil => intro db _ r hr _ _; exact hr
  | cons tk rest ih =>
    intro db h r hr e he
    exact ih _ (checkAllChannels_rowids role tk db h) r
      (checkAllChannels_closed_stable role tk db h r hr e he) e he

theorem runNows_cons (tk : List (String × TickInput))
    (rest : List (List (String × TickInput))) :
    runNows (tk :: rest) = tickNows tk ++ runNows rest := by
  simp [runNows]

theorem runTicks_closedOK (role : Option String) :
    ∀ (ticks : List (List (String × TickInput))) (db : DB) (t : Nat),
      StartsBounded db t → ClosedOK db →
      List.Pairwise (· ≤ ·) (t :: runNows ticks) →
      ClosedOK (runTicks role ticks db) := by
  intro ticks
  induction ticks with
  | nil => intro db t _ hc _; exact hc
  | cons tk rest ih =>
    intro db t hb hc hpw
    rw [runNows_cons] at hpw
    rcases List.pairwise_cons.mp hpw with ⟨hthead, hpw2⟩
    rcases List.pairwise_append.mp hpw2 with ⟨pwTk, pwRest, cross⟩
    have hm := checkAllChannels_bounds role tk db t (maxOf t (tickNows tk)) hb hc
      (List.pairwise_cons.mpr
        ⟨fun a ha => hthead a (List.mem_append_left _ ha), pwTk⟩)
      (le_maxOf_self _ t)
      (fun n hn => le_maxOf_mem _ t n hn)
    refine ih _ (maxOf t (tickNows tk)) hm.1 hm.2 ?_
    refine List.pairwise_cons.mpr ⟨?_, pwRest⟩
    intro a ha
    exact maxOf_le _ t a (hthead a (List.mem_append_right _ ha))
      (fun n hn => cross n hn a ha)

/-! ### Branch equations for one channel step -/

theorem checkChannel_found_eq {db : DB} {channelName cid : String}
    (role : Option String) (inp : TickInput)
    (hlook : lookupChannelId db channelName = some cid) (hcid : cid ≠ "") :
    checkChannel role channelName inp db = afterId role channelName cid inp db := by
  have hbeq : (cid == "") = false := by
    simp [hcid]
  unfold checkChannel
  rw [hlook]
  simp [truthyStr, hbeq]

theorem afterId_throw_eq {db : DB} {channelName cid : String} {e : JsError}
    (role : Option String) (inp : TickInput)
    (hlive : inp.liveResult = .throw e) :
    afterId role channelName cid inp db
      = (logError db inp.now e "checkAllChannels", []) := by
  unfold afterId
  rw [hlive]
  rfl

theorem afterId_live_open_eq {db : DB} {channelName cid : String}
    {sd : StreamData} {ds : List StreamData} {row : SessionRow}
    (role : Option String) (inp : TickInput)
    (hlive : inp.liveResult = .okData (sd :: ds))
    (hrow : getOpenSession db cid = some row) :
    afterId role channelName cid inp db = continueAction role sd row inp db := by
  unfold afterId
  rw [hlive]
  simp only [fetchIsLive]
  rw [hrow]

theorem afterId_live_none_eq {db : DB} {channelName cid : String}
    {sd : StreamData} {ds : List StreamData}
    (role : Option String) (inp : TickInput)
    (hlive : inp.liveResult = .okData (sd :: ds))
    (hrow : getOpenSession db cid = none) :
    afterId role channelName cid inp db = startAction role cid sd inp db := by
  unfold afterId
  rw [hlive]
  simp only [fetchIsLive]
  rw [hrow]

theorem afterId_offline_open_eq {db : DB} {channelName cid : String} {row : SessionRow}
    (role : Option String) (inp : TickInput)
    (hlive : fetchIsLive inp.liveResult = .ok none)
    (hrow : getOpenSession db cid = some row) :
    afterId role channelName cid inp db
      = stopAction role channelName cid row inp db := by
  unfold afterId
  rw [hlive, hrow]

theorem afterId_offline_none_eq {db : DB} {channelName cid : String}
    (role : Option String) (inp : TickInput)
    (hlive : fetchIsLive inp.liveResult = .ok none)
    (hrow : getOpenSession db cid = none) :
    afterId role channelName cid inp db = (db, []) := by
  unfold afterId
  rw [hlive, hrow]

/-! ### Claim theorems -/

/-- C5: on a tick where the liveness query fails without throwing (non-OK
response, modelled by `LiveResult.notOk`, which `fetchIsLive` maps to the
same `null` as a confirmed-offline empty data array), the channel step is
identical to the confirmed-offline step: same store, same sink calls. -/
theorem C5_unknown_equals_offline
    (role : Option String) (channelName : String) (db : DB) (now : Nat)
    (idr : IdResult) (sr : Except JsError String) (er : Except JsError Unit) :
    checkChannel role channelName
        { now := now, idResult := idr, liveResult := .notOk,
          sendResult := sr, editResult := er } db
      = checkChannel role channelName
        { now := now, idResult := idr, liveResult := .okData [],
          sendResult := sr, editResult := er } db
    ∧ fetchIsLive .notOk = fetchIsLive (.okData []) := by
  refine ⟨?_, rfl⟩
  unfold checkChannel
  by_cases h : truthyStr (lookupChannelId db channelName) = true
  · simp only [h, if_true]
    rfl
  · simp only [Bool.not_eq_true] at h
    simp only [h, Bool.false_eq_true, if_false]
    cases idr with
    | throw e => rfl
    | missing => rfl
    | found fid =>
      by_cases hf : fid == "" <;> simp only [hf, Bool.false_eq_true, if_true, if_false] <;> rfl

/-- C9: the duration recorded at Stop is the elapsed milliseconds
rendered as whole hours and remaining whole minutes, with the hour
component omitted when the hour count is zero; a 45-minute session
renders as 45m. -/
theorem C9_duration_formatting :
    (∀ ms : Nat, fmtDuration (ms : Int)
        = (if ms / 3600000 = 0 then toString ((ms / 60000) % 60) ++ "m"
           else toString (ms / 3600000) ++ "h " ++ toString ((ms / 60000) % 60) ++ "m"))
    ∧ fmtDuration ((45 * 60 * 1000 : Nat) : Int) = "45m" := by
  constructor
  · intro ms
    have h0 : (0 : Int) ≤ (ms : Int) := Int.ofNat_nonneg ms
    have hfd : Int.fdiv (ms : Int) 3600000 = ((ms / 3600000 : Nat) : Int) := by
      rw [Int.fdiv_eq_ediv _ (by norm_num)]
      omega
    have htd : jsTruncDiv (ms : Int) 3600000 = ((ms / 3600000 : Nat) : Int) := by
      unfold jsTruncDiv
      rw [if_pos h0]
      exact hfd
    have hsub : (ms : Int) - 3600000 * ((ms / 3600000 : Nat) : Int)
        = ((ms % 3600000 : Nat) : Int) := by
      omega
    have hmin : Int.fdiv ((ms % 3600000 : Nat) : Int) 60000
        = ((ms % 3600000 / 60000 : Nat) : Int) := by
      rw [Int.fdiv_eq_ediv _ (by norm_num)]
      omega
    have hmm : ms % 3600000 / 60000 = ms / 60000 % 60 := by
      have h36 : (3600000 : Nat) = 60000 * 60 := by norm_num
      rw [h36]
      exact Nat.mod_mul_right_div_self ms 60000 60
    unfold fmtDuration
    rw [htd, hsub, hfd, hmin, hmm]
    by_cases hz : ms / 3600000 = 0
    · rw [if_pos hz, if_pos (by rw [hz]; rfl)]
      rfl
    · rw [if_neg hz, if_neg (by omega)]
      have : toString ((ms / 3600000 : Nat) : Int) = toString (ms / 3600000) := rfl
      rw [this]
      rfl
  · rfl

/-- C10: a live tick on an open session whose stored thumbnail base is
null performs no message edit and no store mutation at all: the refresh
path is guarded on the thumbnail base. -/
theorem C10_null_thumbnail_noop
    (role : Option String) (channelName cid : String) (inp : TickInput)
    (db : DB) (row : SessionRow) (sd : StreamData) (ds : List StreamData)
    (hlook : lookupChannelId db channelName = some cid) (hcid : cid ≠ "")
    (hlive : inp.liveResult = .okData (sd :: ds))
    (hrow : getOpenSession db cid = some row)
    (hthumb : row.thumbnailURL = none) :
    checkChannel role channelName inp db = (db, []) := by
  rw [checkChannel_found_eq role inp hlook hcid,
    afterId_live_open_eq role inp hlive hrow]
  unfold continueAction
  rw [hthumb]

/-- C7: a Start action sends a notification whose image URL is the
thumbnail template with the width placeholder replaced by 1280 and the
height placeholder replaced by 720 (`baseThumb`) plus a cache-busting
query parameter derived from the tick time, and inserts a session row
with start = now, no end, the sink's message id, the resolved thumbnail
base, and last-refresh = now. -/
theorem C7_start_action
    (role : Option String) (channelName cid msgId : String) (inp : TickInput)
    (db : DB) (sd : StreamData) (ds : List StreamData)
    (hlook : lookupChannelId db channelName = some cid) (hcid : cid ≠ "")
    (hlive : inp.liveResult = .okData (sd :: ds))
    (hrow : getOpenSession db cid = none)
    (hsend : inp.sendResult = .ok msgId) :
    (checkChannel role channelName inp db).2
      = [SinkCall.send
          (liveEmbed sd inp.now (baseThumb sd ++ "?t=" ++ toString inp.now))
          (mentionContent role)] ∧
    (checkChannel role channelName inp db).1.channelData
      = db.channelData ++
        [{ rowid := db.nextRowid, channel := cid, startTime := inp.now,
           endTime := none, messageID := some msgId,
           messageLink := some ("https://discord.com/channels/.../" ++ msgId),
           thumbnailURL := some (baseThumb sd),
           lastThumbUpdate := some inp.now }] := by
  rw [checkChannel_found_eq role inp hlook hcid,
    afterId_live_none_eq role inp hlive hrow]
  unfold startAction
  rw [hsend]
  exact ⟨rfl, rfl⟩

/-- C2 (amended): when the message edit of a Continue refresh fails, the
failure is caught and recorded to the ErrorLog with category
ThumbnailRefresh, but the store mutation setting last-refresh is NOT
applied: the session table is left exactly as it was, so the refresh is
retried on a later tick. (In the source the `UPDATE ... lastThumbUpdate`
sits inside the try block after `editMessage`, so a throwing edit skips
it.) -/
theorem C2_continue_edit_failure
    (role : Option String) (channelName cid u : String) (inp : TickInput)
    (db : DB) (row : SessionRow) (sd : StreamData) (ds : List StreamData)
    (e : JsError)
    (hlook : lookupChannelId db channelName = some cid) (hcid : cid ≠ "")
    (hlive : inp.liveResult = .okData (sd :: ds))
    (hrow : getOpenSession db cid = some row)
    (hthumb : row.thumbnailURL = some u) (hu : ¬ u = "")
    (helapsed : THUMBNAIL_REFRESH_INTERVAL
      ≤ (inp.now : Int) - ((row.lastThumbUpdate.getD 0 : Nat) : Int))
    (hedit : inp.editResult = .error e) :
    (checkChannel role channelName inp db).1.channelData = db.channelData ∧
    (checkChannel role channelName inp db).1.errorLog
      = db.errorLog ++ [mkErrorRow inp.now e "ThumbnailRefresh"] ∧
    (checkChannel role channelName inp db).2
      = [SinkCall.edit (jsOrElse row.messageID "")
          (liveEmbed sd inp.now (u ++ "?t=" ++ toString inp.now))
          (mentionContent role)] := by
  rw [checkChannel_found_eq role inp hlook hcid,
    afterId_live_open_eq role inp hlive hrow]
  unfold continueAction
  rw [hthumb]
  have hbeq : (u == "") = false := by simp [hu]
  simp only [hbeq, Bool.false_eq_true, if_false]
  rw [if_pos helapsed, hedit]
  exact ⟨rfl, rfl, rfl⟩

/-- C3 (amended): on a Continue tick with a stored thumbnail base, when
the elapsed time since last refresh reaches the 10-minute interval,
exactly one message edit is attempted; if the edit succeeds the whole
effect is setting last-refresh = now, and if it fails the whole effect is
one ErrorLog record; below the interval — even by one millisecond — the
step returns the store untouched and makes no sink call. -/
theorem C3_refresh_gating
    (role : Option String) (channelName cid u : String) (inp : TickInput)
    (db : DB) (row : SessionRow) (sd : StreamData) (ds : List StreamData)
    (hlook : lookupChannelId db channelName = some cid) (hcid : cid ≠ "")
    (hlive : inp.liveResult = .okData (sd :: ds))
    (hrow : getOpenSession db cid = some row)
    (hthumb : row.thumbnailURL = some u) (hu : ¬ u = "") :
    (THUMBNAIL_REFRESH_INTERVAL
        ≤ (inp.now : Int) - ((row.lastThumbUpdate.getD 0 : Nat) : Int) →
      (checkChannel role channelName inp db).2
        = [SinkCall.edit (jsOrElse row.messageID "")
            (liveEmbed sd inp.now (u ++ "?t=" ++ toString inp.now))
            (mentionContent role)] ∧
      (∀ x, inp.editResult = .ok x →
        (checkChannel role channelName inp db).1
          = setLastThumb db row.rowid inp.now) ∧
      (∀ e, inp.editResult = .error e →
        (checkChannel role channelName inp db).1
          = logError db inp.now e "ThumbnailRefresh")) ∧
    ((inp.now : Int) - ((row.lastThumbUpdate.getD 0 : Nat) : Int)
        < THUMBNAIL_REFRESH_INTERVAL →
      checkChannel role channelName inp db = (db, [])) := by
  rw [checkChannel_found_eq role inp hlook hcid,
    afterId_live_open_eq role inp hlive hrow]
  unfold continueAction
  rw [hthumb]
  have hbeq : (u == "") = false := by simp [hu]
  simp only [hbeq, Bool.false_eq_true, if_false]
  constructor
  · intro helapsed
    rw [if_pos helapsed]
    refine ⟨?_, ?_, ?_⟩
    · cases hr : inp.editResult <;> rfl
    · intro x hr
      rw [hr]
    · intro e hr
      rw [hr]
  · intro hless
    rw [if_neg (not_le.mpr hless)]

/-- C4: a Stop action closes the open row at end = now and appends the
MessageHistory record whatever the edit outcome is — the two store writes
precede the edit attempt and survive its failure — makes exactly one edit
call to the sink, and on edit failure logs one StreamEndUpdate error
record. -/
theorem C4_stop_durable_before_edit
    (role : Option String) (channelName cid : String) (inp : TickInput)
    (db : DB) (row : SessionRow)
    (hlook : lookupChannelId db channelName = some cid) (hcid : cid ≠ "")
    (hlive : fetchIsLive inp.liveResult = .ok none)
    (hrow : getOpenSession db cid = some row) :
    (checkChannel role channelName inp db).1.messageHistory
      = db.messageHistory ++
        [{ channel := cid
           vodDuration := fmtDuration ((inp.now : Int) - ((row.startTime : Nat) : Int))
           startTime := row.startTime
           endTime := inp.now
           messageID := row.messageID
           messageLink := row.messageLink
           vodLink := "https://www.twitch.tv/" ++ channelName ++ "/videos" }] ∧
    { row with endTime := some inp.now }
      ∈ (checkChannel role channelName inp db).1.channelData ∧
    (checkChannel role channelName inp db).2
      = [SinkCall.edit (jsOrElse row.messageID "")
          (endEmbed channelName
            (fmtDuration ((inp.now : Int) - ((row.startTime : Nat) : Int)))
            ("https://www.twitch.tv/" ++ channelName ++ "/videos") inp.now)
          (mentionContent role)] ∧
    (∀ e, inp.editResult = .error e →
      (checkChannel role channelName inp db).1.errorLog
        = db.errorLog ++ [mkErrorRow inp.now e "StreamEndUpdate"]) := by
  rw [checkChannel_found_eq role inp hlook hcid,
    afterId_offline_open_eq role inp hlive hrow]
  have hmem : { row with endTime := some inp.now }
      ∈ (closeSession db row.rowid inp.now).channelData := by
    have hrmem : row ∈ db.channelData := List.mem_of_find?_eq_some hrow
    have himg : (fun r => if r.rowid = row.rowid
        then { r with endTime := some inp.now } else r) row
        = { row with endTime := some inp.now } := by
      simp
    exact himg ▸ List.mem_map_of_mem _ hrmem
  refine ⟨?_, ?_, ?_, ?_⟩
  · cases hr : inp.editResult <;> simp only [stopAction, hr] <;> rfl
  · cases hr : inp.editResult <;> simp only [stopAction, hr] <;> exact hmem
  · cases hr : inp.editResult <;> simp only [stopAction, hr] <;> rfl
  · intro e he
    cases hr : inp.editResult with
    | ok x =>
      rw [hr] at he
      cases he
    | error e0 =>
      rw [hr] at he
      cases he
      simp only [stopAction, hr]
      rfl

/-- C6: when the oracle's liveness call throws during one channel's
reconciliation, the exception is caught at the per-channel boundary: one
ErrorLog record (timestamp, category, description, parsed source line,
trace) is inserted, no session, history or channel row changes, no sink
call is made, and the remaining channels of the tick are processed
exactly as they would be from that error-logged store. -/
theorem C6_channel_failure_isolated
    (role : Option String) (channelName cid : String) (inp : TickInput)
    (db : DB) (e : JsError) (rest : List (String × TickInput))
    (hlook : lookupChannelId db channelName = some cid) (hcid : cid ≠ "")
    (hlive : inp.liveResult = .throw e) :
    (checkChannel role channelName inp db).1.channelData = db.channelData ∧
    (checkChannel role channelName inp db).1.messageHistory = db.messageHistory ∧
    (checkChannel role channelName inp db).1.channels = db.channels ∧
    (checkChannel role channelName inp db).1.errorLog
      = db.errorLog ++ [mkErrorRow inp.now e "checkAllChannels"] ∧
    (checkChannel role channelName inp db).2 = [] ∧
    checkAllChannels role ((channelName, inp) :: rest) db
      = checkAllChannels role rest (checkChannel role channelName inp db).1 := by
  have hstep : checkChannel role channelName inp db
      = (logError db inp.now e "checkAllChannels", []) := by
    rw [checkChannel_found_eq role inp hlook hcid,
      afterId_throw_eq role inp hlive]
  refine ⟨by rw [hstep]; try rfl, by rw [hstep]; try rfl, by rw [hstep]; try rfl,
    by rw [hstep]; try rfl, by rw [hstep]; try rfl, ?_⟩
  simp only [checkAllChannels, hstep, List.nil_append]

/-- C1: for every sequence of oracle signals, sink outcomes and tick
times, a run of the reconciliation loop preserves the invariant that no
channel ever has two open session rows — the Start branch inserts a row
only in the branch where the open-session query returned none. -/
theorem C1_at_most_one_open_session
    (role : Option String) (ticks : List (List (String × TickInput)))
    (db : DB) (h : OpenAtMostOne db) :
    OpenAtMostOne (runTicks role ticks db) :=
  runTicks_open role ticks db h

/-- C8: with a non-decreasing clock across the run, every closed session
row of the final store has end at or after start, and a row that is
already closed passes through the whole run untouched — the close update
only ever targets the rowid of the open row returned by the query. -/
theorem C8_closed_session_monotone
    (role : Option String) (ticks : List (List (String × TickInput)))
    (db : DB) (t : Nat)
    (hw : RowidsOK db) (hb : StartsBounded db t) (hc : ClosedOK db)
    (hpw : List.Pairwise (· ≤ ·) (t :: runNows ticks)) :
    ClosedOK (runTicks role ticks db) ∧
    (∀ r ∈ db.channelData, ∀ e, r.endTime = some e →
      r ∈ (runTicks role ticks db).channelData) :=
  ⟨runTicks_closedOK role ticks db t hb hc hpw,
   fun r hr e he => runTicks_closed_stable role ticks db hw r hr e he⟩

/-! ### Concrete data for witnesses and counterexamples -/

/-- The stream metadata of the went-live scenario of the spec. -/
def sdSample : StreamData :=
  { user_id := "u1", user_login := "nova", user_name := "Nova",
    type := "live", title := "Launch Day",
    started_at := "2025-01-01T00:00:00Z",
    thumbnail_url := "https://x/\x7bwidth\x7dx\x7bheight\x7d.jpg",
    game_name := some "IRL" }

/-- A tick input reporting the channel live, with the sink accepting both
calls. -/
def liveInp (now : Nat) : TickInput :=
  { now := now, idResult := .found "chan1", liveResult := .okData [sdSample],
    sendResult := .ok "msg1", editResult := .ok () }

/-- A tick input reporting the channel offline. -/
def offInp (now : Nat) : TickInput :=
  { now := now, idResult := .missing, liveResult := .okData [],
    sendResult := .ok "msg9", editResult := .ok () }

/-- An open session row as the Start branch records it at time 1000. -/
def rowOpen : SessionRow :=
  { rowid := 0, channel := "chan1", startTime := 1000, endTime := none,
    messageID := some "msg1",
    messageLink := some "https://discord.com/channels/.../msg1",
    thumbnailURL := some "https://x/1280x720.jpg",
    lastThumbUpdate := some 1000 }

/-- A store holding one known channel and one open session. -/
def dbOpen : DB :=
  { channels := [("nova", "chan1")], channelData := [rowOpen],
    messageHistory := [], errorLog := [], nextRowid := 1 }

/-- A tick at time 601000 (elapsed exactly the 10-minute interval since
1000) whose message edit throws. -/
def editFailInp : TickInput :=
  { now := 601000, idResult := .missing, liveResult := .okData [sdSample],
    sendResult := .ok "unused",
    editResult := .error { message := "edit failed", stack := none } }

/-- A tick at time 700000 whose message edit throws. -/
def editFailInp2 : TickInput :=
  { now := 700000, idResult := .missing, liveResult := .okData [sdSample],
    sendResult := .ok "unused",
    editResult := .error { message := "socket hang up", stack := none } }

/-! ### Counterexamples and witnesses -/

/-- C2 counterexample: at the open session of dbOpen (last refresh at
1000) a live tick at 601000 whose edit throws leaves last-refresh at 1000
— it does not equal the tick time 601000 as the claim states — while the
ThumbnailRefresh error is recorded. -/
theorem C2_counterexample :
    ((checkChannel none "nova" editFailInp dbOpen).1.channelData.map
      (fun r => r.lastThumbUpdate)) = [some 1000] ∧
    ¬ ((checkChannel none "nova" editFailInp dbOpen).1.channelData.map
      (fun r => r.lastThumbUpdate)) = [some editFailInp.now] ∧
    ((checkChannel none "nova" editFailInp dbOpen).1.errorLog.map
      (fun r => r.errorType)) = ["ThumbnailRefresh"] := by
  refine ⟨by decide, by decide, by decide⟩

/-- C3 counterexample: a Continue tick at 700000 with elapsed far above
the interval whose edit throws does not set last-refresh to now, refuting
the claim's unconditional "exactly one message edit occurs and
last-refresh is set to now" on this tick. -/
theorem C3_counterexample :
    ((checkChannel none "nova" editFailInp2 dbOpen).1.channelData.map
      (fun r => r.lastThumbUpdate)) = [some 1000] ∧
    ¬ ((checkChannel none "nova" editFailInp2 dbOpen).1.channelData.map
      (fun r => r.lastThumbUpdate)) = [some editFailInp2.now] := by
  refine ⟨by decide, by decide⟩

/-- C1 witness: the invariant holds on the empty store and is preserved
over a concrete two-tick run that starts and keeps a session. -/
theorem C1_witness :
    OpenAtMostOne emptyDB ∧
    OpenAtMostOne (runTicks none
      [[("nova", liveInp 1000)], [("nova", liveInp 700000)]] emptyDB) :=
  have h : OpenAtMostOne emptyDB := fun _ => Nat.zero_le 1
  ⟨h, C1_at_most_one_open_session none
      [[("nova", liveInp 1000)], [("nova", liveInp 700000)]] emptyDB h⟩

/-- C8 witness: a concrete run from the empty store under a sorted clock
0, 1000, 2000 that opens and then closes a session. -/
theorem C8_witness :
    RowidsOK emptyDB ∧ StartsBounded emptyDB 0 ∧ ClosedOK emptyDB ∧
    List.Pairwise (· ≤ ·)
      (0 :: runNows [[("nova", liveInp 1000)], [("nova", offInp 2000)]]) ∧
    (ClosedOK (runTicks none
        [[("nova", liveInp 1000)], [("nova", offInp 2000)]] emptyDB) ∧
      (∀ r ∈ emptyDB.channelData, ∀ e, r.endTime = some e →
        r ∈ (runTicks none
          [[("nova", liveInp 1000)], [("nova", offInp 2000)]] emptyDB).channelData)) :=
  have hw : RowidsOK emptyDB :=
    ⟨fun r hr => absurd hr (List.not_mem_nil r), List.Pairwise.nil⟩
  have hb : StartsBounded emptyDB 0 := fun r hr => absurd hr (List.not_mem_nil r)
  have hc : ClosedOK emptyDB := fun r hr => absurd hr (List.not_mem_nil r)
  have hpw : List.Pairwise (· ≤ ·)
      (0 :: runNows [[("nova", liveInp 1000)], [("nova", offInp 2000)]]) := by decide
  ⟨hw, hb, hc, hpw,
    C8_closed_session_monotone none
      [[("nova", liveInp 1000)], [("nova", offInp 2000)]] emptyDB 0 hw hb hc hpw⟩

/-- C2 witness for the amended claim: the concrete failed-edit Continue
tick leaves the session table unchanged, records the ThumbnailRefresh
error, and attempted exactly one edit. -/
theorem C2_witness :
    getOpenSession dbOpen "chan1" = some rowOpen ∧
    THUMBNAIL_REFRESH_INTERVAL
      ≤ (editFailInp.now : Int) - ((rowOpen.lastThumbUpdate.getD 0 : Nat) : Int) ∧
    editFailInp.editResult = Except.error { message := "edit failed", stack := none } ∧
    ((checkChannel none "nova" editFailInp dbOpen).1.channelData = dbOpen.channelData ∧
     (checkChannel none "nova" editFailInp dbOpen).1.errorLog
       = dbOpen.errorLog
         ++ [mkErrorRow editFailInp.now
              { message := "edit failed", stack := none } "ThumbnailRefresh"] ∧
     (checkChannel none "nova" editFailInp dbOpen).2
       = [SinkCall.edit (jsOrElse rowOpen.messageID "")
           (liveEmbed sdSample editFailInp.now
             ("https://x/1280x720.jpg" ++ "?t=" ++ toString editFailInp.now))
           (mentionContent none)]) :=
  ⟨rfl, by decide, rfl,
    C2_continue_edit_failure none "nova" "chan1" "https://x/1280x720.jpg"
      editFailInp dbOpen rowOpen sdSample []
      { message := "edit failed", stack := none }
      rfl (by decide) rfl rfl rfl (by decide) (by decide) rfl⟩

/-- C3 witness for the amended claim: at elapsed exactly the interval the
refresh happens (store equals the last-refresh update, one edit call);
one millisecond below the boundary nothing happens. -/
theorem C3_witness :
    lookupChannelId dbOpen "nova" = some "chan1" ∧
    getOpenSession dbOpen "chan1" = some rowOpen ∧
    (checkChannel none "nova" (liveInp 601000) dbOpen).1
      = setLastThumb dbOpen 0 601000 ∧
    (checkChannel none "nova" (liveInp 601000) dbOpen).2
      = [SinkCall.edit (jsOrElse rowOpen.messageID "")
          (liveEmbed sdSample 601000
            ("https://x/1280x720.jpg" ++ "?t=" ++ toString (601000 : Nat)))
          (mentionContent none)] ∧
    checkChannel none "nova" (liveInp 600999) dbOpen = (dbOpen, []) := by
  refine ⟨rfl, rfl, ?_, ?_, ?_⟩
  · exact ((C3_refresh_gating none "nova" "chan1" "https://x/1280x720.jpg"
      (liveInp 601000) dbOpen rowOpen sdSample []
      rfl (by decide) rfl rfl rfl (by decide)).1 (by decide)).2.1 () rfl
  · exact ((C3_refresh_gating none "nova" "chan1" "https://x/1280x720.jpg"
      (liveInp 601000) dbOpen rowOpen sdSample []
      rfl (by decide) rfl rfl rfl (by decide)).1 (by decide)).1
  · exact (C3_refresh_gating none "nova" "chan1" "https://x/1280x720.jpg"
      (liveInp 600999) dbOpen rowOpen sdSample []
      rfl (by decide) rfl rfl rfl (by decide)).2 (by decide)

/-- C4 witness: the offline tick at 800000 on the open session closes it,
appends the 13m history record, and makes one edit call. -/
theorem C4_witness :
    getOpenSession dbOpen "chan1" = some rowOpen ∧
    fetchIsLive (offInp 800000).liveResult = Except.ok none ∧
    ((checkChannel none "nova" (offInp 800000) dbOpen).1.messageHistory
       = dbOpen.messageHistory ++
         [{ channel := "chan1"
            vodDuration := fmtDuration (((offInp 800000).now : Int) - ((rowOpen.startTime : Nat) : Int))
            startTime := rowOpen.startTime
            endTime := (offInp 800000).now
            messageID := rowOpen.messageID
            messageLink := rowOpen.messageLink
            vodLink := "https://www.twitch.tv/" ++ "nova" ++ "/videos" }] ∧
     { rowOpen with endTime := some (offInp 800000).now }
       ∈ (checkChannel none "nova" (offInp 800000) dbOpen).1.channelData ∧
     (checkChannel none "nova" (offInp 800000) dbOpen).2
       = [SinkCall.edit (jsOrElse rowOpen.messageID "")
           (endEmbed "nova"
             (fmtDuration (((offInp 800000).now : Int) - ((rowOpen.startTime : Nat) : Int)))
             ("https://www.twitch.tv/" ++ "nova" ++ "/videos") (offInp 800000).now)
           (mentionContent none)] ∧
     (∀ e, (offInp 800000).editResult = .error e →
       (checkChannel none "nova" (offInp 800000) dbOpen).1.errorLog
         = dbOpen.errorLog ++ [mkErrorRow (offInp 800000).now e "StreamEndUpdate"])) ∧
    fmtDuration (((offInp 800000).now : Int) - ((rowOpen.startTime : Nat) : Int)) = "13m" :=
  ⟨rfl, rfl,
    C4_stop_durable_before_edit none "nova" "chan1" (offInp 800000) dbOpen rowOpen
      rfl (by decide) rfl rfl,
    by decide⟩

/-- A tick whose liveness call throws a network error carrying a stack
trace pointing at line 191. -/
def throwInp : TickInput :=
  { now := 900000, idResult := .missing,
    liveResult := .throw
      { message := "network down",
        stack := some "Error: network down\n    at fetchIsLive (/app/src/index.ts:191:22)" },
    sendResult := .ok "unused", editResult := .ok () }

/-- C6 witness: the throwing tick on the open-session store logs one
checkAllChannels error record — with the line number 191 parsed out of
the trace — changes nothing else, makes no sink call, and the next
channel of the tick is processed from that store. -/
theorem C6_witness :
    lookupChannelId dbOpen "nova" = some "chan1" ∧
    throwInp.liveResult = LiveResult.throw
      { message := "network down",
        stack := some "Error: network down\n    at fetchIsLive (/app/src/index.ts:191:22)" } ∧
    ((checkChannel none "nova" throwInp dbOpen).1.channelData = dbOpen.channelData ∧
     (checkChannel none "nova" throwInp dbOpen).1.messageHistory = dbOpen.messageHistory ∧
     (checkChannel none "nova" throwInp dbOpen).1.channels = dbOpen.channels ∧
     (checkChannel none "nova" throwInp dbOpen).1.errorLog
       = dbOpen.errorLog ++
         [mkErrorRow throwInp.now
           { message := "network down",
             stack := some "Error: network down\n    at fetchIsLive (/app/src/index.ts:191:22)" }
           "checkAllChannels"] ∧
     (checkChannel none "nova" throwInp dbOpen).2 = [] ∧
     checkAllChannels none [("nova", throwInp), ("other", offInp 900001)] dbOpen
       = checkAllChannels none [("other", offInp 900001)]
           (checkChannel none "nova" throwInp dbOpen).1) ∧
    (mkErrorRow throwInp.now
      { message := "network down",
        stack := some "Error: network down\n    at fetchIsLive (/app/src/index.ts:191:22)" }
      "checkAllChannels").line = some 191 :=
  ⟨rfl, rfl,
    C6_channel_failure_isolated none "nova" "chan1" throwInp dbOpen
      { message := "network down",
        stack := some "Error: network down\n    at fetchIsLive (/app/src/index.ts:191:22)" }
      [("other", offInp 900001)] rfl (by decide) rfl,
    by decide⟩

/-- A store that already knows the channel id but has no session rows. -/
def dbKnown : DB :=
  { channels := [("nova", "chan1")], channelData := [],
    messageHistory := [], errorLog := [], nextRowid := 0 }

/-- C7 witness: the spec scenario — template https://x/{width}x{height}.jpg
at tick time 0 produces the send call with image
https://x/1280x720.jpg?t=0 and persists the session row with
thumbnailBase https://x/1280x720.jpg and lastRefresh 0. -/
theorem C7_witness :
    lookupChannelId dbKnown "nova" = some "chan1" ∧
    getOpenSession dbKnown "chan1" = none ∧
    (liveInp 0).sendResult = Except.ok "msg1" ∧
    ((checkChannel none "nova" (liveInp 0) dbKnown).2
       = [SinkCall.send
           (liveEmbed sdSample 0 (baseThumb sdSample ++ "?t=" ++ toString (0 : Nat)))
           (mentionContent none)] ∧
     (checkChannel none "nova" (liveInp 0) dbKnown).1.channelData
       = dbKnown.channelData ++
         [{ rowid := dbKnown.nextRowid, channel := "chan1", startTime := 0,
            endTime := none, messageID := some "msg1",
            messageLink := some ("https://discord.com/channels/.../" ++ "msg1"),
            thumbnailURL := some (baseThumb sdSample),
            lastThumbUpdate := some 0 }]) ∧
    baseThumb sdSample = "https://x/1280x720.jpg" ∧
    baseThumb sdSample ++ "?t=" ++ toString (0 : Nat) = "https://x/1280x720.jpg?t=0" :=
  ⟨rfl, rfl, rfl,
    C7_start_action none "nova" "chan1" "msg1" (liveInp 0) dbKnown sdSample []
      rfl (by decide) rfl rfl rfl,
    by decide, by decide⟩

/-- An open session row whose stored thumbnail base is null. -/
def rowNoThumb : SessionRow :=
  { rowid := 0, channel := "chan1", startTime := 500, endTime := none,
    messageID := some "msg1", messageLink := none,
    thumbnailURL := none, lastThumbUpdate := none }

/-- A store holding the known channel and the thumbnail-less open row. -/
def dbNoThumb : DB :=
  { channels := [("nova", "chan1")], channelData := [rowNoThumb],
    messageHistory := [], errorLog := [], nextRowid := 1 }

/-- C10 witness: a live tick an arbitrary ten years of milliseconds later
on the thumbnail-less open session does nothing at all. -/
theorem C10_witness :
    getOpenSession dbNoThumb "chan1" = some rowNoThumb ∧
    rowNoThumb.thumbnailURL = none ∧
    checkChannel none "nova" (liveInp 315360000000) dbNoThumb = (dbNoThumb, []) :=
  ⟨rfl, rfl,
    C10_null_thumbnail_noop none "nova" "chan1" (liveInp 315360000000)
      dbNoThumb rowNoThumb sdSample [] rfl (by decide) rfl rfl rfl⟩
